import Mathlib

/-!
# Verification of the to-do data-access layer (`backend/src/dal.py`)

Shallow embedding of the document mapper (`ListSummary.from_doc`,
`ToDoListItem.from_doc`, `ToDoList.from_doc`) and the DAL operations
(`get_todo_list`, `delete_todo_list`, `create_item`, `set_checked_state`,
`delete_item`) over a model of Python/BSON values and a MongoDB collection.

Conventions of the embedding:
* Python values (including stored BSON documents) are modelled by `Value`.
  `Value.exotic` stands for an object whose `str()`/`repr()` raises.
* Code that can raise is modelled in `Except PyErr`; `Except.error` is a
  raised exception.
* `ObjectId` is modelled as `Value.oid h` where `h` is the canonical
  24-character lowercase hex string of the id.
* Pydantic model construction validates `str`-typed fields: a non-string
  value for such a field raises a validation error (`validateStr`).
* The MongoDB collection is a list of documents; only the filter shapes and
  update operators actually used by `dal.py` are modelled.
-/

set_option autoImplicit false

namespace FarmDal

/-- A Python/BSON value as far as `dal.py` can observe it. -/
inductive Value where
  | none
  | bool (b : Bool)
  | int (n : Int)
  | str (s : String)
  | oid (hex : String)
  | arr (xs : List Value)
  | obj (kvs : List (String × Value))
  | exotic

/-- Exceptions distinguished by the embedding. -/
inductive PyErr where
  | attributeError
  | typeError
  | valueError
  | validationError
deriving DecidableEq, Repr

/-- Python truthiness (`bool(x)` / `if x:`). -/
def truthy : Value → Bool
  | .none => false
  | .bool b => b
  | .int n => !(n == 0)
  | .str s => !(s == "")
  | .oid _ => true
  | .arr xs => !xs.isEmpty
  | .obj kvs => !kvs.isEmpty
  | .exotic => true

def Value.isDict : Value → Bool
  | .obj _ => true
  | _ => false

def Value.isStr : Value → Bool
  | .str _ => true
  | _ => false

def Value.isOid : Value → Bool
  | .oid _ => true
  | _ => false

/-- First value bound to key `k` in an association list (Python `dict` lookup;
a Python dict has no duplicate keys). -/
def lookupKey (kvs : List (String × Value)) (k : String) : Option Value :=
  match kvs with
  | [] => Option.none
  | (k', v) :: rest => if k' = k then some v else lookupKey rest k

/-- Python `repr(x)`, partial: `Value.exotic` models an object whose
`repr`/`str` raises.  String escaping inside container reprs is simplified
to plain quoting (no claim inspects the repr of a container). -/
def pyRepr : Value → Option String
  | .none => some "None"
  | .bool true => some "True"
  | .bool false => some "False"
  | .int n => some (toString n)
  | .str s => some ("\x27" ++ s ++ "\x27")
  | .oid h => some ("ObjectId(\x27" ++ h ++ "\x27)")
  | .arr xs => do
      let rs ← pyReprList xs
      some ("[" ++ String.intercalate ", " rs ++ "]")
  | .obj kvs => do
      let rs ← pyReprPairs kvs
      some ("\x7b" ++ String.intercalate ", " rs ++ "\x7d")
  | .exotic => Option.none
where
  pyReprList : List Value → Option (List String)
    | [] => some []
    | x :: xs => do
        let r ← pyRepr x
        let rs ← pyReprList xs
        some (r :: rs)
  pyReprPairs : List (String × Value) → Option (List String)
    | [] => some []
    | (k, v) :: kvs => do
        let r ← pyRepr v
        let rs ← pyReprPairs kvs
        some (("\x27" ++ k ++ "\x27: " ++ r) :: rs)

/-- Python `str(x)`, partial where `repr`/`str` raises. `str` of an
`ObjectId` is its 24-character lowercase hex string. -/
def pyStr : Value → Option String
  | .str s => some s
  | .oid h => some h
  | v => pyRepr v

/-- Python `len(x)`, partial: only sequences and mappings have a length. -/
def pyLen : Value → Option Nat
  | .str s => some s.length
  | .arr xs => some xs.length
  | .obj kvs => some kvs.length
  | _ => Option.none

/-- Python `x.get(k, d)`: raises `AttributeError` unless `x` is a dict. -/
def pyGetD (v : Value) (k : String) (d : Value) : Except PyErr Value :=
  match v with
  | .obj kvs => .ok ((lookupKey kvs k).getD d)
  | _ => .error .attributeError

/-- Python `x.get(k)` (default `None`). -/
def pyGet (v : Value) (k : String) : Except PyErr Value :=
  pyGetD v k .none

/-- Python iteration `for x in v`: raises `TypeError` on non-iterables;
iterating a string yields its characters, iterating a dict its keys. -/
def pyIter : Value → Except PyErr (List Value)
  | .arr xs => .ok xs
  | .str s => .ok (s.toList.map (fun c => .str (String.mk [c])))
  | .obj kvs => .ok (kvs.map (fun kv => .str kv.1))
  | _ => .error .typeError

/-- Pydantic validation of a `str`-typed model field: accepts exactly
Python strings, raises a validation error otherwise. -/
def validateStr : Value → Except PyErr String
  | .str s => .ok s
  | _ => .error .validationError

/-- `v is None` (Python identity test against `None`). -/
def Value.isNoneV : Value → Bool
  | .none => true
  | _ => false

instance instDecEqExcept {ε α : Type} [DecidableEq ε] [DecidableEq α] :
    DecidableEq (Except ε α) := fun
  | .error e, .error f =>
    match decEq e f with
    | isTrue h => isTrue (h ▸ rfl)
    | isFalse h => isFalse (fun c => h (Except.error.inj c))
  | .error _, .ok _ => isFalse Except.noConfusion
  | .ok _, .error _ => isFalse Except.noConfusion
  | .ok a, .ok b =>
    match decEq a b with
    | isTrue h => isTrue (h ▸ rfl)
    | isFalse h => isFalse (fun c => h (Except.ok.inj c))

/-! ## The three read models (pydantic classes of `dal.py`) -/

/-- `class ListSummary(BaseModel)`: `id: Optional[str]`, `name: str`,
`item_count: int` (always a `len`, hence `Nat` here). -/
structure ListSummary where
  id : Option String
  name : String
  item_count : Nat
deriving DecidableEq, Repr

/-- `class ToDoListItem(BaseModel)`: `id: Optional[str]`, `label: str`,
`checked: bool`. -/
structure ToDoListItem where
  id : Option String
  label : String
  checked : Bool
deriving DecidableEq, Repr

/-- `class ToDoList(BaseModel)`: `id: Optional[str]`, `name: str`,
`items: List[ToDoListItem]`. -/
structure ToDoList where
  id : Option String
  name : String
  items : List ToDoListItem
deriving DecidableEq, Repr

/-- `id_str = str(raw_id) if raw_id is not None else None` wrapped in the
`try/except` that turns a stringification failure into `None`. -/
def idStrOf (rawId : Value) : Option String :=
  if rawId.isNoneV then Option.none else pyStr rawId

/-- `ListSummary.from_doc` (dal.py lines 21-43). -/
def ListSummary.from_doc (doc : Value) : Except PyErr ListSummary := do
  if !truthy doc then
    return ⟨Option.none, "", 0⟩
  let idField ← pyGet doc "_id"
  let rawId ← if truthy idField then pure idField else pyGet doc "id"
  let idStr := idStrOf rawId
  let items ← pyGetD doc "items" (.arr [])
  let count := (pyLen items).getD 0
  let name ← validateStr (← pyGetD doc "name" (.str ""))
  return ⟨idStr, name, count⟩

/-- `ToDoListItem.from_doc` (dal.py lines 50-70). -/
def ToDoListItem.from_doc (item : Value) : Except PyErr ToDoListItem := do
  if !truthy item || !item.isDict then
    return ⟨Option.none, "", false⟩
  let idField ← pyGet item "id"
  let rawId ← if !idField.isNoneV then pure idField else pyGet item "_id"
  let idStr := idStrOf rawId
  let label ← validateStr (← pyGetD item "label" (.str ""))
  let checked := truthy (← pyGetD item "checked" (.bool false))
  return ⟨idStr, label, checked⟩

/-- `ToDoList.from_doc` (dal.py lines 77-99); the Python function returns
`None` for a falsy document, hence the `Option` in the result.  An item
whose mapping raises is skipped (the `try/except` around the append). -/
def ToDoList.from_doc (doc : Value) : Except PyErr (Option ToDoList) := do
  if !truthy doc then
    return Option.none
  let idField ← pyGet doc "_id"
  let rawId ← if truthy idField then pure idField else pyGet doc "id"
  let idStr := idStrOf rawId
  let itemsRaw ← pyGetD doc "items" (.arr [])
  let itemsDocs := if truthy itemsRaw then itemsRaw else .arr []
  let elems ← pyIter itemsDocs
  let itemsList := elems.filterMap (fun it => (ToDoListItem.from_doc it).toOption)
  let name ← validateStr (← pyGetD doc "name" (.str ""))
  return some ⟨idStr, name, itemsList⟩

/-! ## ObjectId -/

/-- Lowercase an ASCII character (executable counterpart of
`Char.toLower`, which does not reduce definitionally). -/
def lowerChar (c : Char) : Char :=
  if c.isUpper then Char.ofNat (c.toNat + 32) else c

/-- Lowercase an ASCII string (`str.lower()`). -/
def lowerStr (s : String) : String :=
  String.mk (s.toList.map lowerChar)

def isHexChar (c : Char) : Bool :=
  c.isDigit || ('a' ≤ c && c ≤ 'f') || ('A' ≤ c && c ≤ 'F')

/-- `bson.ObjectId.is_valid` for a string argument: a 24-character hex
string (either case). -/
def isValidObjectId (s : String) : Bool :=
  s.length == 24 && s.toList.all isHexChar

/-- `ObjectId(x)`: succeeds on an `ObjectId` (returning it) and on a valid
24-hex string (parsing it; hex digits are case-insensitive, so the stored
canonical form is the lowercased string); raises on everything else —
modelled as `Option.none`. -/
def tryObjectId : Value → Option Value
  | .str s => if isValidObjectId s then some (.oid (lowerStr s)) else Option.none
  | .oid h => some (.oid h)
  | _ => Option.none

/-- The hex string of a real `ObjectId` is 24 lowercase hex characters. -/
def canonicalOidHex (h : String) : Bool :=
  isValidObjectId h && lowerStr h == h

/-! ## MongoDB collection model

Only what `dal.py` uses: `find_one`, `delete_one`, `find_one_and_update`
with `ReturnDocument.AFTER`, filters `{"_id": v}` and
`{"_id": v, "items.id": s}`, and updates `$push items`, `$set
items.$.checked`, `$pull items by id`. -/

/-- Field access on a stored document (store side, total). -/
def dget (d : Value) (k : String) : Option Value :=
  match d with
  | .obj kvs => lookupKey kvs k
  | _ => Option.none

/-- BSON equality as used for `_id` and `items.id` matching, restricted to
the scalar values that occur as ids (documents produced by this
application use `ObjectId` or string ids; containers never). -/
def scalarEq : Value → Value → Bool
  | .none, .none => true
  | .bool a, .bool b => a == b
  | .int a, .int b => a == b
  | .str a, .str b => a == b
  | .oid a, .oid b => a == b
  | _, _ => false

/-- The two filter shapes `dal.py` sends. -/
inductive Filter where
  | byId (v : Value)
  | byIdAndItem (v : Value) (itemId : String)

/-- Does array element `it` satisfy the `items.id: i` condition? -/
def itemIdMatches (it : Value) (i : String) : Bool :=
  match dget it "id" with
  | some w => scalarEq w (.str i)
  | Option.none => false

/-- Mongo dot-path condition `items.id: i` on a document. -/
def hasItemWithId (d : Value) (i : String) : Bool :=
  match dget d "items" with
  | some (.arr xs) => xs.any (itemIdMatches · i)
  | _ => false

def docMatches : Filter → Value → Bool
  | .byId v, d =>
      match dget d "_id" with
      | some w => scalarEq w v
      | Option.none => false
  | .byIdAndItem v i, d =>
      (match dget d "_id" with
       | some w => scalarEq w v
       | Option.none => false) && hasItemWithId d i

/-- Replace the binding of `k` (preserving position), or append it. -/
def setKey : List (String × Value) → String → Value → List (String × Value)
  | [], k, v => [(k, v)]
  | (k', v') :: kvs, k, v =>
      if k' = k then (k, v) :: kvs else (k', v') :: setKey kvs k v

/-- `$set`-style field write on a document. -/
def dset (d : Value) (k : String) (v : Value) : Value :=
  match d with
  | .obj kvs => .obj (setKey kvs k v)
  | _ => d

/-- The three update operators `dal.py` sends. -/
inductive Update where
  | pushItem (it : Value)
  | setMatchedChecked (itemId : String) (b : Bool)
  | pullItems (itemId : String)

/-- `items.$.checked = b`: the positional operator writes the first array
element matching the `items.id` condition of the query. -/
def setFirstChecked (i : String) (b : Bool) : List Value → List Value
  | [] => []
  | x :: xs =>
      if itemIdMatches x i then dset x "checked" (.bool b) :: xs
      else x :: setFirstChecked i b xs

/-- Server-side application of an update to a matched document.  `$push`
creates a missing `items` field; a non-array `items` is a write error. -/
def applyUpdate : Update → Value → Except PyErr Value
  | .pushItem it, d =>
      match dget d "items" with
      | Option.none => .ok (dset d "items" (.arr [it]))
      | some (.arr xs) => .ok (dset d "items" (.arr (xs ++ [it])))
      | some _ => .error .valueError
  | .setMatchedChecked i b, d =>
      match dget d "items" with
      | some (.arr xs) => .ok (dset d "items" (.arr (setFirstChecked i b xs)))
      | _ => .error .valueError
  | .pullItems i, d =>
      match dget d "items" with
      | Option.none => .ok d
      | some (.arr xs) => .ok (dset d "items" (.arr (xs.filter (fun x => !itemIdMatches x i))))
      | some _ => .error .valueError

/-- The collection, as the ordered list of its documents. -/
abbrev Collection := List Value

/-- `find_one(filter)`. -/
def findOne (coll : Collection) (f : Filter) : Option Value :=
  coll.find? (docMatches f)

/-- `find_one` as the Python value it returns (`None` when nothing
matches). -/
def findOneV (coll : Collection) (f : Filter) : Value :=
  (findOne coll f).getD .none

/-- `delete_one(filter)`: remove the first matching document, returning
the new collection and `deleted_count`. -/
def removeFirst (p : Value → Bool) : List Value → List Value × Nat
  | [] => ([], 0)
  | d :: ds =>
      if p d then (ds, 1)
      else
        let r := removeFirst p ds
        (d :: r.1, r.2)

/-- `find_one_and_update(filter, update, return_document=AFTER)`: update
the first matching document and return it post-mutation (`none` when no
document matches). -/
def updateFirst (p : Value → Bool) (u : Value → Except PyErr Value) :
    List Value → Except PyErr (List Value × Option Value)
  | [] => .ok ([], Option.none)
  | d :: ds =>
      if p d then do
        let d' ← u d
        .ok (d' :: ds, some d')
      else do
        let r ← updateFirst p u ds
        .ok (d :: r.1, r.2)

/-! ## The DAL operations (`class ToDoDAL`) -/

/-- The filter built by `get_todo_list` (dal.py lines 122-130): try
`ObjectId(id)`, on failure fall back to the literal string. -/
def getListFilter (id : String) : Filter :=
  match tryObjectId (.str id) with
  | some o => .byId o
  | Option.none => .byId (.str id)

/-- `ToDoDAL.get_todo_list`. -/
def ToDoDAL.get_todo_list (coll : Collection) (id : String) :
    Except PyErr (Option ToDoList) := do
  let doc := findOneV coll (getListFilter id)
  if !truthy doc then
    return Option.none
  ToDoList.from_doc doc

/-- The filter built by `delete_todo_list` (dal.py lines 138-147). -/
def deleteListFilter (id : String) : Filter :=
  match tryObjectId (.str id) with
  | some o => .byId o
  | Option.none => .byId (.str id)

/-- `ToDoDAL.delete_todo_list`: returns the new collection and
`deleted_count == 1`. -/
def ToDoDAL.delete_todo_list (coll : Collection) (id : String) :
    Collection × Bool :=
  let r := removeFirst (docMatches (deleteListFilter id)) coll
  (r.1, r.2 == 1)

/-- The `_id` filter value of `create_item` (dal.py line 162):
`ObjectId(id) if not isinstance(id, str) or ObjectId.is_valid(id) else id`. -/
def createItemFilterId (id : Value) : Except PyErr Value :=
  if !id.isStr || (match id with | .str s => isValidObjectId s | _ => false) then
    match tryObjectId id with
    | some o => .ok o
    | Option.none => .error .valueError
  else .ok id

/-- Shared tail of the three `find_one_and_update` operations, applied to
the document the store returned (`None` when nothing matched):
`if result: return ToDoList.from_doc(result); return None`. -/
def mapUpdatedDoc (result : Option Value) : Except PyErr (Option ToDoList) := do
  let dv := result.getD .none
  if truthy dv then
    ToDoList.from_doc dv
  else
    return Option.none

/-- `mapUpdatedDoc` on the store round-trip result, paired with the
threaded collection state. -/
def returnUpdated (r : List Value × Option Value) :
    Except PyErr (Collection × Option ToDoList) :=
  (mapUpdatedDoc r.2).map (fun l => (r.1, l))

/-- `ToDoDAL.create_item` (dal.py lines 150-177).  `itemId` is the
freshly generated `uuid4().hex` (see `ToDoDAL.create_item_gen`). -/
def ToDoDAL.create_item (coll : Collection) (id : Value) (label : String)
    (itemId : String) : Except PyErr (Collection × Option ToDoList) := do
  let fv ← createItemFilterId id
  let newItem : Value := .obj [("id", .str itemId), ("label", .str label), ("checked", .bool false)]
  let r ← updateFirst (docMatches (.byId fv)) (applyUpdate (.pushItem newItem)) coll
  returnUpdated r

/-- The `_id` filter value of `set_checked_state` (dal.py line 190):
`ObjectId(doc_id) if ObjectId.is_valid(str(doc_id)) else doc_id`. -/
def setCheckedFilterId (docId : Value) : Except PyErr Value := do
  let s ← match pyStr docId with
    | some s => pure s
    | Option.none => Except.error PyErr.typeError
  if isValidObjectId s then
    match tryObjectId docId with
    | some o => pure o
    | Option.none => Except.error PyErr.valueError
  else pure docId

/-- `ToDoDAL.set_checked_state` (dal.py lines 179-202). -/
def ToDoDAL.set_checked_state (coll : Collection) (docId : Value)
    (itemId : String) (checkedState : Bool) :
    Except PyErr (Collection × Option ToDoList) := do
  let fv ← setCheckedFilterId docId
  let r ← updateFirst (docMatches (.byIdAndItem fv itemId))
      (applyUpdate (.setMatchedChecked itemId checkedState)) coll
  returnUpdated r

/-- The `_id` filter value of `delete_item` (dal.py lines 213-216):
`try ObjectId(doc_id) except: doc_id`. -/
def deleteItemFilterId (docId : Value) : Value :=
  match tryObjectId docId with
  | some o => o
  | Option.none => docId

/-- `ToDoDAL.delete_item` (dal.py lines 204-226). -/
def ToDoDAL.delete_item (coll : Collection) (docId : Value)
    (itemId : String) : Except PyErr (Collection × Option ToDoList) := do
  let fv := deleteItemFilterId docId
  let r ← updateFirst (docMatches (.byId fv)) (applyUpdate (.pullItems itemId)) coll
  returnUpdated r

/-- A uuid source: `uuid4().hex` modelled as an injected stream of hex
strings, read at successive positions (spec design note: "model item
identity generation as an explicit injected id-generator capability"). -/
structure UuidGen where
  gen : Nat → String

/-- DAL state for operations that draw generated ids: the collection plus
how many uuids were drawn so far. -/
structure DalState where
  coll : Collection
  drawn : Nat

/-- `create_item` with its id generation made explicit: draws the next
uuid from the stream (`item_id = uuid4().hex`, dal.py line 160). -/
def ToDoDAL.create_item_gen (g : UuidGen) (st : DalState) (id : Value)
    (label : String) : Except PyErr (DalState × Option ToDoList) := do
  let itemId := g.gen st.drawn
  let r ← ToDoDAL.create_item st.coll id label itemId
  return (⟨r.1, st.drawn + 1⟩, r.2)

/-- Modelled from the spec (the reference statement of claim C2): the explicit
two-stage identity resolution — "every operation attempts the native
encoding first and falls back to literal string match on decode failure". -/
def resolveIdentity (id : Value) : Value :=
  match tryObjectId id with
  | some o => o
  | Option.none => id

/-! ## Canonical stored documents

Lists created by this application have exactly the shape
`{_id, name: str, items: [{id: str, label: str, checked: bool}, ...]}`
(`create_todo_list` inserts `{"name": name, "items": []}` and
`create_item` pushes `{"id": hex, "label": label, "checked": False}`). -/

/-- The item sub-document `create_item` pushes. -/
def mkItemDoc (i l : String) (b : Bool) : Value :=
  .obj [("id", .str i), ("label", .str l), ("checked", .bool b)]

/-- An item as (id, label, checked). -/
abbrev ItemTriple := String × String × Bool

def itemDocOf (t : ItemTriple) : Value := mkItemDoc t.1 t.2.1 t.2.2

def itemModelOf (t : ItemTriple) : ToDoListItem := ⟨some t.1, t.2.1, t.2.2⟩

/-- A stored list document of the shape this application writes. -/
def mkListDoc (idv : Value) (name : String) (items : List Value) : Value :=
  .obj [("_id", idv), ("name", .str name), ("items", .arr items)]

/-- Did this fallible computation return normally (no exception)? -/
def isOkE {ε α : Type} : Except ε α → Bool
  | .ok _ => true
  | .error _ => false

/-! ## Computation lemmas -/

@[simp] theorem except_bind_ok {ε α β : Type} (a : α) (f : α → Except ε β) :
    Bind.bind (Except.ok a) f = f a := rfl

@[simp] theorem except_bind_err {ε α β : Type} (e : ε) (f : α → Except ε β) :
    Bind.bind (Except.error e) f = Except.error e := rfl

@[simp] theorem except_pure_eq {ε α : Type} (a : α) :
    (Pure.pure a : Except ε α) = Except.ok a := rfl

theorem isNoneV_eq_false_of_truthy {v : Value} (h : truthy v = true) :
    v.isNoneV = false := by
  cases v <;> simp_all [truthy, Value.isNoneV]

theorem arr_ite_truthy (xs : List Value) :
    (if truthy (.arr xs) then Value.arr xs else .arr []) = .arr xs := by
  cases xs <;> simp [truthy]

@[simp] theorem from_doc_mkItemDoc (i l : String) (b : Bool) :
    ToDoListItem.from_doc (mkItemDoc i l b) = .ok ⟨some i, l, b⟩ := by
  simp [ToDoListItem.from_doc, mkItemDoc, pyGet, pyGetD, lookupKey, truthy,
    Value.isDict, Value.isNoneV, idStrOf, pyStr, validateStr]

@[simp] theorem truthy_obj_cons (kv : String × Value) (kvs : List (String × Value)) :
    truthy (.obj (kv :: kvs)) = true := by
  simp [truthy]

@[simp] theorem filterMap_from_doc_itemDocOf (its : List ItemTriple) :
    List.filterMap ((fun it => (ToDoListItem.from_doc it).toOption) ∘ itemDocOf)
      its = its.map itemModelOf := by
  induction its with
  | nil => simp
  | cons t ts ih =>
      have hthead : ((fun it => (ToDoListItem.from_doc it).toOption) ∘ itemDocOf) t
          = some (itemModelOf t) := by
        simp [itemDocOf, Except.toOption, itemModelOf]
      simp only [List.filterMap_cons, hthead, ih, List.map_cons]

theorem from_doc_mkListDoc (idv : Value) (name : String) (its : List ItemTriple)
    (vstr : String) (ht : truthy idv = true) (hs : pyStr idv = some vstr) :
    ToDoList.from_doc (mkListDoc idv name (its.map itemDocOf)) =
      .ok (some ⟨some vstr, name, its.map itemModelOf⟩) := by
  have hn := isNoneV_eq_false_of_truthy ht
  simp [ToDoList.from_doc, mkListDoc, pyGet, pyGetD, lookupKey, ht, hn,
    idStrOf, hs, validateStr, arr_ite_truthy, pyIter]

@[simp] theorem truthy_mkListDoc (idv : Value) (name : String) (items : List Value) :
    truthy (mkListDoc idv name items) = true := by
  simp [mkListDoc, truthy]

@[simp] theorem itemIdMatches_itemDocOf (t : ItemTriple) (i : String) :
    itemIdMatches (itemDocOf t) i = (t.1 == i) := by
  simp [itemIdMatches, itemDocOf, mkItemDoc, dget, lookupKey, scalarEq]

@[simp] theorem docMatches_byId_mkListDoc (w idv : Value) (name : String)
    (items : List Value) :
    docMatches (.byId w) (mkListDoc idv name items) = scalarEq idv w := by
  simp [docMatches, mkListDoc, dget, lookupKey]

@[simp] theorem docMatches_byIdAndItem_mkListDoc (w idv : Value) (i name : String)
    (items : List Value) :
    docMatches (.byIdAndItem w i) (mkListDoc idv name items) =
      (scalarEq idv w && items.any (itemIdMatches · i)) := by
  simp [docMatches, mkListDoc, dget, lookupKey, hasItemWithId]

theorem applyUpdate_push_mkListDoc (it idv : Value) (name : String)
    (items : List Value) :
    applyUpdate (.pushItem it) (mkListDoc idv name items) =
      .ok (mkListDoc idv name (items ++ [it])) := by
  simp [applyUpdate, mkListDoc, dget, lookupKey, dset, setKey]

theorem applyUpdate_pull_mkListDoc (idv : Value) (i name : String)
    (items : List Value) :
    applyUpdate (.pullItems i) (mkListDoc idv name items) =
      .ok (mkListDoc idv name (items.filter (fun x => !itemIdMatches x i))) := by
  simp [applyUpdate, mkListDoc, dget, lookupKey, dset, setKey]

theorem applyUpdate_setChecked_mkListDoc (idv : Value) (i : String) (b : Bool)
    (name : String) (items : List Value) :
    applyUpdate (.setMatchedChecked i b) (mkListDoc idv name items) =
      .ok (mkListDoc idv name (setFirstChecked i b items)) := by
  simp [applyUpdate, mkListDoc, dget, lookupKey, dset, setKey]

theorem updateFirst_append (p : Value → Bool) (u : Value → Except PyErr Value)
    (pre suf : List Value) (d d' : Value)
    (hpre : ∀ x ∈ pre, p x = false) (hd : p d = true) (hu : u d = .ok d') :
    updateFirst p u (pre ++ d :: suf) = .ok (pre ++ d' :: suf, some d') := by
  induction pre with
  | nil => simp [updateFirst, hd, hu]
  | cons a as ih =>
      have ha : p a = false := hpre a (by simp)
      have ih' := ih (fun x hx => hpre x (by simp [hx]))
      simp [updateFirst, ha, ih']

theorem updateFirst_of_no_match (p : Value → Bool) (u : Value → Except PyErr Value)
    (coll : List Value) (h : ∀ x ∈ coll, p x = false) :
    updateFirst p u coll = .ok (coll, Option.none) := by
  induction coll with
  | nil => simp [updateFirst]
  | cons a as ih =>
      have ha : p a = false := h a (by simp)
      have ih' := ih (fun x hx => h x (by simp [hx]))
      simp [updateFirst, ha, ih']

theorem ite_pure_ok {ε α : Type} (c : Prop) [Decidable c] (a b : α) :
    (if c then (pure a : Except ε α) else .ok b) = .ok (if c then a else b) := by
  split <;> rfl

/-- Closed form of `ListSummary.from_doc` on a truthy dict. -/
theorem listSummary_from_doc_obj (kvs : List (String × Value))
    (ht : truthy (.obj kvs) = true) :
    ListSummary.from_doc (.obj kvs) =
      (validateStr ((lookupKey kvs "name").getD (.str ""))).map (fun name =>
        ⟨idStrOf (if truthy ((lookupKey kvs "_id").getD .none)
                  then (lookupKey kvs "_id").getD .none
                  else (lookupKey kvs "id").getD .none),
          name,
          (pyLen ((lookupKey kvs "items").getD (.arr []))).getD 0⟩) := by
  cases hval : validateStr ((lookupKey kvs "name").getD (.str "")) <;>
    simp [ListSummary.from_doc, ht, pyGet, pyGetD, ite_pure_ok, hval, Except.map]
  all_goals split <;> rfl

/-- Closed form of `ToDoListItem.from_doc` on a truthy dict. -/
theorem toDoListItem_from_doc_obj (kvs : List (String × Value))
    (ht : truthy (.obj kvs) = true) :
    ToDoListItem.from_doc (.obj kvs) =
      (validateStr ((lookupKey kvs "label").getD (.str ""))).map (fun label =>
        ⟨idStrOf (if ((lookupKey kvs "id").getD .none).isNoneV = false
                  then (lookupKey kvs "id").getD .none
                  else (lookupKey kvs "_id").getD .none),
          label,
          truthy ((lookupKey kvs "checked").getD (.bool false))⟩) := by
  cases hval : validateStr ((lookupKey kvs "label").getD (.str "")) <;>
    simp [ToDoListItem.from_doc, ht, Value.isDict, pyGet, pyGetD, ite_pure_ok,
      hval, Except.map]
  all_goals split <;> simp_all

/-- Closed form of `ToDoList.from_doc` on a truthy dict. -/
theorem toDoList_from_doc_obj (kvs : List (String × Value))
    (ht : truthy (.obj kvs) = true) :
    ToDoList.from_doc (.obj kvs) =
      (pyIter (if truthy ((lookupKey kvs "items").getD (.arr []))
               then (lookupKey kvs "items").getD (.arr []) else .arr [])).bind
        (fun elems =>
          (validateStr ((lookupKey kvs "name").getD (.str ""))).map (fun name =>
            some ⟨idStrOf (if truthy ((lookupKey kvs "_id").getD .none)
                           then (lookupKey kvs "_id").getD .none
                           else (lookupKey kvs "id").getD .none),
              name,
              elems.filterMap (fun it => (ToDoListItem.from_doc it).toOption)⟩)) := by
  cases hit : pyIter (if truthy ((lookupKey kvs "items").getD (.arr []))
      then (lookupKey kvs "items").getD (.arr []) else .arr []) <;>
    cases hval : validateStr ((lookupKey kvs "name").getD (.str "")) <;>
    simp [ToDoList.from_doc, ht, pyGet, pyGetD, ite_pure_ok, hit, hval,
      Except.map, Except.bind]
  all_goals split <;> rfl

theorem listSummary_from_doc_falsy (v : Value) (hv : truthy v = false) :
    ListSummary.from_doc v = .ok ⟨Option.none, "", 0⟩ := by
  simp [ListSummary.from_doc, hv]

theorem toDoListItem_from_doc_falsy (v : Value) (hv : truthy v = false) :
    ToDoListItem.from_doc v = .ok ⟨Option.none, "", false⟩ := by
  simp [ToDoListItem.from_doc, hv]

theorem toDoList_from_doc_falsy (v : Value) (hv : truthy v = false) :
    ToDoList.from_doc v = .ok Option.none := by
  simp [ToDoList.from_doc, hv]

theorem listSummary_from_doc_nondict (v : Value) (ht : truthy v = true)
    (hd : v.isDict = false) :
    ListSummary.from_doc v = .error .attributeError := by
  cases v <;> simp_all [ListSummary.from_doc, Value.isDict, pyGet, pyGetD]

theorem toDoList_from_doc_nondict (v : Value) (ht : truthy v = true)
    (hd : v.isDict = false) :
    ToDoList.from_doc v = .error .attributeError := by
  cases v <;> simp_all [ToDoList.from_doc, Value.isDict, pyGet, pyGetD]

theorem toDoListItem_from_doc_nondict (v : Value) (hd : v.isDict = false) :
    ToDoListItem.from_doc v = .ok ⟨Option.none, "", false⟩ := by
  simp [ToDoListItem.from_doc, hd]

theorem truthy_obj_of_lookup {kvs : List (String × Value)} {k : String} {w : Value}
    (h : lookupKey kvs k = some w) : truthy (.obj kvs) = true := by
  cases kvs with
  | nil => simp [lookupKey] at h
  | cons kv rest => simp [truthy]

theorem removeFirst_snd (p : Value → Bool) (coll : List Value) :
    (removeFirst p coll).2 = if coll.any p then 1 else 0 := by
  induction coll with
  | nil => simp [removeFirst]
  | cons a as ih =>
      by_cases ha : p a = true
      · simp [removeFirst, ha]
      · simp only [Bool.not_eq_true] at ha
        simp [removeFirst, ha, ih]

theorem removeFirst_countP (p : Value → Bool) (coll : List Value) :
    (removeFirst p coll).1.countP p = coll.countP p - (removeFirst p coll).2 := by
  induction coll with
  | nil => simp [removeFirst]
  | cons a as ih =>
      by_cases ha : p a = true
      · simp [removeFirst, ha, List.countP_cons]
      · simp only [Bool.not_eq_true] at ha
        simp [removeFirst, ha, List.countP_cons, ih]

end FarmDal

namespace FarmDal

theorem listSummary_item_count_of_obj (kvs : List (String × Value))
    (s : ListSummary) (ht : truthy (.obj kvs) = true)
    (h : ListSummary.from_doc (.obj kvs) = .ok s) :
    s.item_count = (pyLen ((lookupKey kvs "items").getD (.arr []))).getD 0 := by
  rw [listSummary_from_doc_obj kvs ht] at h
  cases hval : validateStr ((lookupKey kvs "name").getD (.str "")) with
  | error e => rw [hval] at h; simp [Except.map] at h
  | ok nm =>
      rw [hval] at h
      simp only [Except.map, Except.ok.injEq] at h
      rw [← h]

theorem listSummary_item_count_of_missing (kvs : List (String × Value))
    (s : ListSummary) (hlk : lookupKey kvs "items" = Option.none)
    (h : ListSummary.from_doc (.obj kvs) = .ok s) :
    s.item_count = 0 := by
  by_cases ht : truthy (.obj kvs) = true
  · have hc := listSummary_item_count_of_obj kvs s ht h
    rw [hlk] at hc
    simpa [pyLen] using hc
  · have hf : truthy (.obj kvs) = false := by
      revert ht; cases truthy (.obj kvs) <;> simp
    rw [listSummary_from_doc_falsy _ hf] at h
    cases h
    rfl

/-- C7: `ListSummary.from_doc` of an absent (falsy) document is the
zero-value summary (no id, empty name, zero count); on a present (truthy)
dict it returns `item_count` equal to the Python length of the `items`
field (defaulting to the empty array) when that field has a length, and 0
otherwise; in particular a successful mapping of a document without an
`items` field has `item_count = 0`. -/
theorem list_summary_item_count :
    (∀ v : Value, truthy v = false →
        ListSummary.from_doc v = .ok ⟨Option.none, "", 0⟩)
    ∧ (∀ (kvs : List (String × Value)) (s : ListSummary),
        truthy (.obj kvs) = true →
        ListSummary.from_doc (.obj kvs) = .ok s →
        s.item_count = (pyLen ((lookupKey kvs "items").getD (.arr []))).getD 0)
    ∧ (∀ (kvs : List (String × Value)) (s : ListSummary),
        lookupKey kvs "items" = Option.none →
        ListSummary.from_doc (.obj kvs) = .ok s →
        s.item_count = 0) :=
  ⟨listSummary_from_doc_falsy, listSummary_item_count_of_obj,
    listSummary_item_count_of_missing⟩

/-- Witness for C7 at concrete inputs. -/
theorem list_summary_item_count_witness :
    (truthy Value.none = false
      ∧ ListSummary.from_doc Value.none = .ok ⟨Option.none, "", 0⟩)
    ∧ (ListSummary.from_doc
          (.obj [("name", .str "g"), ("items", .arr [.int 1, .int 2])]) =
        .ok ⟨Option.none, "g", 2⟩
      ∧ ListSummary.item_count ⟨Option.none, "g", 2⟩ =
        (pyLen ((lookupKey [("name", Value.str "g"),
            ("items", .arr [.int 1, .int 2])] "items").getD (.arr []))).getD 0)
    ∧ (ListSummary.from_doc (.obj [("name", .str "g")]) = .ok ⟨Option.none, "g", 0⟩
      ∧ ListSummary.item_count ⟨Option.none, "g", 0⟩ = 0) :=
  ⟨⟨by decide, list_summary_item_count.1 Value.none (by decide)⟩,
    ⟨by decide, list_summary_item_count.2.1 _ _ (by decide) (by decide)⟩,
    ⟨by decide,
      list_summary_item_count.2.2 [("name", Value.str "g")] ⟨Option.none, "g", 0⟩
        (by rfl) (by decide)⟩⟩

theorem toDoList_from_doc_ok_none_iff (v : Value) :
    ToDoList.from_doc v = .ok Option.none ↔ truthy v = false := by
  constructor
  · intro h
    by_cases ht : truthy v = true
    · exfalso
      by_cases hd : v.isDict = true
      · obtain ⟨kvs, rfl⟩ : ∃ kvs, v = .obj kvs := by
          cases v <;> first | exact ⟨_, rfl⟩ | simp_all [Value.isDict]
        rw [toDoList_from_doc_obj kvs ht] at h
        cases hit : pyIter (if truthy ((lookupKey kvs "items").getD (.arr []))
            then (lookupKey kvs "items").getD (.arr []) else .arr []) with
        | error e => rw [hit] at h; simp [Except.bind] at h
        | ok elems =>
            rw [hit] at h
            cases hval : validateStr ((lookupKey kvs "name").getD (.str "")) with
            | error e => rw [hval] at h; simp [Except.bind, Except.map] at h
            | ok nm => rw [hval] at h; simp [Except.bind, Except.map] at h
      · have hd' : v.isDict = false := by
          revert hd; cases v.isDict <;> simp
        rw [toDoList_from_doc_nondict v ht hd'] at h
        cases h
    · revert ht; cases truthy v <;> simp
  · exact toDoList_from_doc_falsy v

/-- C8: `ToDoList.from_doc` returns the absent signal (`None`) exactly when
its input is absent (falsy), while `ListSummary.from_doc` and
`ToDoListItem.from_doc` never return an absent result (their codomain has
no absent value): on absent input they return their zero-value models. -/
theorem absent_signal_asymmetry :
    (∀ v : Value, ToDoList.from_doc v = .ok Option.none ↔ truthy v = false)
    ∧ (∀ v : Value, truthy v = false →
        ListSummary.from_doc v = .ok ⟨Option.none, "", 0⟩
        ∧ ToDoListItem.from_doc v = .ok ⟨Option.none, "", false⟩) :=
  ⟨toDoList_from_doc_ok_none_iff,
    fun v hv => ⟨listSummary_from_doc_falsy v hv, toDoListItem_from_doc_falsy v hv⟩⟩

/-- Witness for C8 at concrete inputs. -/
theorem absent_signal_asymmetry_witness :
    (ToDoList.from_doc Value.none = .ok Option.none ↔ truthy Value.none = false)
    ∧ (ListSummary.from_doc (.bool false) = .ok ⟨Option.none, "", 0⟩
      ∧ ToDoListItem.from_doc (.bool false) = .ok ⟨Option.none, "", false⟩) :=
  ⟨absent_signal_asymmetry.1 Value.none,
    absent_signal_asymmetry.2 (.bool false) (by decide)⟩

end FarmDal

namespace FarmDal

theorem listSummary_id_of_falsy_idfield (kvs : List (String × Value)) (w : Value)
    (s : ListSummary) (hw : lookupKey kvs "_id" = some w) (hfw : truthy w = false)
    (h : ListSummary.from_doc (.obj kvs) = .ok s) :
    s.id = idStrOf ((lookupKey kvs "id").getD .none) := by
  have ht := truthy_obj_of_lookup hw
  rw [listSummary_from_doc_obj kvs ht, hw] at h
  cases hval : validateStr ((lookupKey kvs "name").getD (.str "")) with
  | error e => rw [hval] at h; simp [Except.map] at h
  | ok nm =>
      rw [hval] at h
      simp only [Except.map, Option.getD_some, hfw, Bool.false_eq_true, if_false,
        Except.ok.injEq] at h
      rw [← h]

theorem toDoList_id_of_falsy_idfield (kvs : List (String × Value)) (w : Value)
    (l : ToDoList) (hw : lookupKey kvs "_id" = some w) (hfw : truthy w = false)
    (h : ToDoList.from_doc (.obj kvs) = .ok (some l)) :
    l.id = idStrOf ((lookupKey kvs "id").getD .none) := by
  have ht := truthy_obj_of_lookup hw
  rw [toDoList_from_doc_obj kvs ht, hw] at h
  cases hit : pyIter (if truthy ((lookupKey kvs "items").getD (.arr []))
      then (lookupKey kvs "items").getD (.arr []) else .arr []) with
  | error e => rw [hit] at h; simp [Except.bind] at h
  | ok elems =>
      rw [hit] at h
      cases hval : validateStr ((lookupKey kvs "name").getD (.str "")) with
      | error e => rw [hval] at h; simp [Except.bind, Except.map] at h
      | ok nm =>
          rw [hval] at h
          simp only [Except.bind, Except.map, Option.getD_some, hfw,
            Bool.false_eq_true, if_false, Except.ok.injEq, Option.some.injEq] at h
          rw [← h]

theorem toDoListItem_id_of_id_field (kvs : List (String × Value)) (w : Value)
    (s : ToDoListItem) (hw : lookupKey kvs "id" = some w) (hnn : w.isNoneV = false)
    (h : ToDoListItem.from_doc (.obj kvs) = .ok s) :
    s.id = idStrOf w := by
  have ht := truthy_obj_of_lookup hw
  rw [toDoListItem_from_doc_obj kvs ht, hw] at h
  cases hval : validateStr ((lookupKey kvs "label").getD (.str "")) with
  | error e => rw [hval] at h; simp [Except.map] at h
  | ok lb =>
      rw [hval] at h
      simp only [Except.map, Option.getD_some, hnn, if_pos, Except.ok.injEq] at h
      rw [← h]

/-- C10: in `ListSummary.from_doc` and `ToDoList.from_doc` the fallback
from `_id` to `id` is triggered by truthiness — a present-but-falsy `_id`
(e.g. the empty string or 0) makes the `id` field be used, exactly as when
`_id` is absent (the extracted id is `idStrOf` of the `id` field with the
same absent-default `None`); `ToDoListItem.from_doc` instead falls back
from `id` to `_id` only when `id` is exactly `None`, so an item whose `id`
is the empty string keeps the empty-string id. -/
theorem id_fallback_truthiness :
    (∀ (kvs : List (String × Value)) (w : Value) (s : ListSummary),
        lookupKey kvs "_id" = some w → truthy w = false →
        ListSummary.from_doc (.obj kvs) = .ok s →
        s.id = idStrOf ((lookupKey kvs "id").getD .none))
    ∧ (∀ (kvs : List (String × Value)) (w : Value) (l : ToDoList),
        lookupKey kvs "_id" = some w → truthy w = false →
        ToDoList.from_doc (.obj kvs) = .ok (some l) →
        l.id = idStrOf ((lookupKey kvs "id").getD .none))
    ∧ (∀ (kvs : List (String × Value)) (w : Value) (s : ToDoListItem),
        lookupKey kvs "id" = some w → w.isNoneV = false →
        ToDoListItem.from_doc (.obj kvs) = .ok s →
        s.id = idStrOf w)
    ∧ (∀ (kvs : List (String × Value)) (s : ToDoListItem),
        lookupKey kvs "id" = some (.str "") →
        ToDoListItem.from_doc (.obj kvs) = .ok s →
        s.id = some "") :=
  ⟨listSummary_id_of_falsy_idfield, toDoList_id_of_falsy_idfield,
    toDoListItem_id_of_id_field,
    fun kvs s hw h => toDoListItem_id_of_id_field kvs (.str "") s hw rfl h⟩

/-- Witness for C10 at concrete inputs (`_id` present but falsy; item `id`
equal to the empty string). -/
theorem id_fallback_truthiness_witness :
    (ListSummary.id ⟨some "abc", "n", 0⟩ =
      idStrOf ((lookupKey [("_id", Value.str ""), ("id", Value.str "abc"),
        ("name", Value.str "n")] "id").getD .none))
    ∧ (ToDoList.id ⟨some "abc", "n", []⟩ =
      idStrOf ((lookupKey [("_id", Value.str ""), ("id", Value.str "abc"),
        ("name", Value.str "n")] "id").getD .none))
    ∧ (ToDoListItem.id ⟨some "", "", false⟩ = idStrOf (Value.str ""))
    ∧ (ToDoListItem.id ⟨some "", "", false⟩ = some "") :=
  ⟨id_fallback_truthiness.1 _ (Value.str "") _ (by rfl) (by decide) (by decide),
    id_fallback_truthiness.2.1 _ (Value.str "") _ (by rfl) (by decide) (by decide),
    id_fallback_truthiness.2.2.1 [("id", Value.str "")] (Value.str "") _ (by rfl)
      (by decide) (by decide),
    id_fallback_truthiness.2.2.2 [("id", Value.str "")] _ (by rfl) (by decide)⟩

end FarmDal

namespace FarmDal

theorem bool_eq_false_of_ne_true {b : Bool} (h : ¬b = true) : b = false := by
  revert h; cases b <;> simp

theorem listSummary_from_doc_ok_of_name_str (kvs : List (String × Value))
    (hn : ((lookupKey kvs "name").getD (.str "")).isStr = true) :
    isOkE (ListSummary.from_doc (.obj kvs)) = true := by
  by_cases ht : truthy (.obj kvs) = true
  · obtain ⟨nm, hnm⟩ : ∃ nm, (lookupKey kvs "name").getD (.str "") = .str nm := by
      cases hv : (lookupKey kvs "name").getD (.str "") <;>
        first | exact ⟨_, rfl⟩ | simp_all [Value.isStr]
    rw [listSummary_from_doc_obj kvs ht, hnm]
    simp [validateStr, Except.map, isOkE]
  · rw [listSummary_from_doc_falsy _ (bool_eq_false_of_ne_true ht)]
    rfl

theorem toDoListItem_from_doc_ok_of_label_str (kvs : List (String × Value))
    (hn : ((lookupKey kvs "label").getD (.str "")).isStr = true) :
    isOkE (ToDoListItem.from_doc (.obj kvs)) = true := by
  by_cases ht : truthy (.obj kvs) = true
  · obtain ⟨lb, hlb⟩ : ∃ lb, (lookupKey kvs "label").getD (.str "") = .str lb := by
      cases hv : (lookupKey kvs "label").getD (.str "") <;>
        first | exact ⟨_, rfl⟩ | simp_all [Value.isStr]
    rw [toDoListItem_from_doc_obj kvs ht, hlb]
    simp [validateStr, Except.map, isOkE]
  · rw [toDoListItem_from_doc_falsy _ (bool_eq_false_of_ne_true ht)]
    rfl

theorem toDoList_from_doc_ok_of_name_str_iterable (kvs : List (String × Value))
    (hn : ((lookupKey kvs "name").getD (.str "")).isStr = true)
    (hiter : isOkE (pyIter (if truthy ((lookupKey kvs "items").getD (.arr []))
        then (lookupKey kvs "items").getD (.arr []) else .arr [])) = true) :
    isOkE (ToDoList.from_doc (.obj kvs)) = true := by
  by_cases ht : truthy (.obj kvs) = true
  · obtain ⟨nm, hnm⟩ : ∃ nm, (lookupKey kvs "name").getD (.str "") = .str nm := by
      cases hv : (lookupKey kvs "name").getD (.str "") <;>
        first | exact ⟨_, rfl⟩ | simp_all [Value.isStr]
    rw [toDoList_from_doc_obj kvs ht, hnm]
    cases hit : pyIter (if truthy ((lookupKey kvs "items").getD (.arr []))
        then (lookupKey kvs "items").getD (.arr []) else .arr []) with
    | error e => rw [hit] at hiter; simp [isOkE] at hiter
    | ok elems => simp [validateStr, Except.bind, Except.map, isOkE]
  · rw [toDoList_from_doc_falsy _ (bool_eq_false_of_ne_true ht)]
    rfl

/-- C1 is false as stated: on a truthy non-dict input, `ListSummary.from_doc`
and `ToDoList.from_doc` raise `AttributeError` (`doc.get` on a non-dict); on
a dict with a non-string `name`/`label`, pydantic validation raises; on a
dict with a truthy non-iterable `items`, `ToDoList.from_doc` raises
`TypeError` while iterating. -/
theorem mapper_totality_cex :
    ListSummary.from_doc (.int 1) = .error .attributeError
    ∧ ToDoList.from_doc (.str "x") = .error .attributeError
    ∧ ListSummary.from_doc (.obj [("name", .arr [])]) = .error .validationError
    ∧ ToDoListItem.from_doc (.obj [("label", .arr [])]) = .error .validationError
    ∧ ToDoList.from_doc (.obj [("items", .int 1)]) = .error .typeError := by
  decide

/-- C1 (amended): the three mappers return without raising on every falsy
input (zero-value models, absent signal for `ToDoList.from_doc`);
`ToDoListItem.from_doc` moreover returns without raising on every non-dict
input and on every dict whose `label` field (defaulting to the empty
string) is a string; `ListSummary.from_doc` returns without raising on
every dict whose `name` field (defaulting to the empty string) is a
string, and `ToDoList.from_doc` additionally requires the `items` field to
be falsy or iterable; but on truthy non-dict inputs `ListSummary.from_doc`
and `ToDoList.from_doc` raise `AttributeError` (while
`ToDoListItem.from_doc` returns its zero-value model). -/
theorem mapper_totality_amended :
    (∀ v : Value, truthy v = false →
        ListSummary.from_doc v = .ok ⟨Option.none, "", 0⟩
        ∧ ToDoListItem.from_doc v = .ok ⟨Option.none, "", false⟩
        ∧ ToDoList.from_doc v = .ok Option.none)
    ∧ (∀ v : Value, truthy v = true → v.isDict = false →
        ListSummary.from_doc v = .error .attributeError
        ∧ ToDoList.from_doc v = .error .attributeError
        ∧ ToDoListItem.from_doc v = .ok ⟨Option.none, "", false⟩)
    ∧ (∀ kvs : List (String × Value),
        ((lookupKey kvs "name").getD (.str "")).isStr = true →
        isOkE (ListSummary.from_doc (.obj kvs)) = true)
    ∧ (∀ kvs : List (String × Value),
        ((lookupKey kvs "label").getD (.str "")).isStr = true →
        isOkE (ToDoListItem.from_doc (.obj kvs)) = true)
    ∧ (∀ kvs : List (String × Value),
        ((lookupKey kvs "name").getD (.str "")).isStr = true →
        isOkE (pyIter (if truthy ((lookupKey kvs "items").getD (.arr []))
            then (lookupKey kvs "items").getD (.arr []) else .arr [])) = true →
        isOkE (ToDoList.from_doc (.obj kvs)) = true) :=
  ⟨fun v hv => ⟨listSummary_from_doc_falsy v hv, toDoListItem_from_doc_falsy v hv,
      toDoList_from_doc_falsy v hv⟩,
    fun v ht hd => ⟨listSummary_from_doc_nondict v ht hd,
      toDoList_from_doc_nondict v ht hd, toDoListItem_from_doc_nondict v hd⟩,
    listSummary_from_doc_ok_of_name_str,
    toDoListItem_from_doc_ok_of_label_str,
    toDoList_from_doc_ok_of_name_str_iterable⟩

/-- Witness for the amended C1 at concrete inputs. -/
theorem mapper_totality_amended_witness :
    (ListSummary.from_doc Value.none = .ok ⟨Option.none, "", 0⟩
      ∧ ToDoListItem.from_doc Value.none = .ok ⟨Option.none, "", false⟩
      ∧ ToDoList.from_doc Value.none = .ok Option.none)
    ∧ (ListSummary.from_doc (.int 7) = .error .attributeError
      ∧ ToDoList.from_doc (.int 7) = .error .attributeError
      ∧ ToDoListItem.from_doc (.int 7) = .ok ⟨Option.none, "", false⟩)
    ∧ isOkE (ListSummary.from_doc (.obj [("name", .str "g")])) = true
    ∧ isOkE (ToDoListItem.from_doc (.obj [("label", .str "Milk")])) = true
    ∧ isOkE (ToDoList.from_doc
        (.obj [("name", .str "g"), ("items", .arr [])])) = true :=
  ⟨mapper_totality_amended.1 Value.none (by decide),
    mapper_totality_amended.2.1 (.int 7) (by decide) (by decide),
    mapper_totality_amended.2.2.1 _ (by decide),
    mapper_totality_amended.2.2.2.1 _ (by decide),
    mapper_totality_amended.2.2.2.2 [("name", Value.str "g"), ("items", Value.arr [])]
      (by decide) (by decide)⟩

end FarmDal

namespace FarmDal

/-- C2: every DAL operation resolves a list identity by the same
two-stage rule `resolveIdentity` (attempt the native `ObjectId` encoding,
fall back to the literal identity on decode failure): the `_id` filter
value built by `get_todo_list`, `delete_todo_list`, `create_item`,
`set_checked_state` and `delete_item` equals `resolveIdentity` of the
identity (for `set_checked_state` on an `ObjectId` input the hypothesis
records that the hex string of a real ObjectId is canonical 24-lowercase-hex,
since that operation decides via `ObjectId.is_valid(str(doc_id))`). -/
theorem identity_resolution_two_stage :
    (∀ s : String, getListFilter s = .byId (resolveIdentity (.str s)))
    ∧ (∀ s : String, deleteListFilter s = .byId (resolveIdentity (.str s)))
    ∧ (∀ v : Value, v.isStr = true ∨ v.isOid = true →
        createItemFilterId v = .ok (resolveIdentity v))
    ∧ (∀ s : String, setCheckedFilterId (.str s) = .ok (resolveIdentity (.str s)))
    ∧ (∀ hx : String, canonicalOidHex hx = true →
        setCheckedFilterId (.oid hx) = .ok (resolveIdentity (.oid hx)))
    ∧ (∀ v : Value, deleteItemFilterId v = resolveIdentity v) := by
  refine ⟨?_, ?_, ?_, ?_, ?_, ?_⟩
  · intro s
    cases hto : tryObjectId (.str s) <;> simp [getListFilter, resolveIdentity, hto]
  · intro s
    cases hto : tryObjectId (.str s) <;> simp [deleteListFilter, resolveIdentity, hto]
  · rintro v (hs | ho)
    · obtain ⟨s, rfl⟩ : ∃ s, v = .str s := by
        cases v <;> first | exact ⟨_, rfl⟩ | simp_all [Value.isStr]
      cases hval : isValidObjectId s <;>
        simp [createItemFilterId, Value.isStr, hval, tryObjectId, resolveIdentity]
    · obtain ⟨hx, rfl⟩ : ∃ hx, v = .oid hx := by
        cases v <;> first | exact ⟨_, rfl⟩ | simp_all [Value.isOid]
      simp [createItemFilterId, Value.isStr, tryObjectId, resolveIdentity]
  · intro s
    cases hval : isValidObjectId s <;>
      simp [setCheckedFilterId, pyStr, hval, tryObjectId, resolveIdentity]
  · intro hx hc
    have hval : isValidObjectId hx = true := by
      simp [canonicalOidHex] at hc
      exact hc.1
    simp [setCheckedFilterId, pyStr, hval, tryObjectId, resolveIdentity]
  · intro v
    rfl

/-- Witness for C2 at concrete identities (a valid hex string, a non-hex
string, and an `ObjectId`). -/
theorem identity_resolution_two_stage_witness :
    (getListFilter "not-an-objectid" =
      .byId (resolveIdentity (.str "not-an-objectid")))
    ∧ (deleteListFilter "aaaaaaaaaaaaaaaaaaaaaaaa" =
      .byId (resolveIdentity (.str "aaaaaaaaaaaaaaaaaaaaaaaa")))
    ∧ (createItemFilterId (.str "AAAAAAAAAAAAAAAAAAAAAAAA") =
      .ok (resolveIdentity (.str "AAAAAAAAAAAAAAAAAAAAAAAA")))
    ∧ (createItemFilterId (.oid "aaaaaaaaaaaaaaaaaaaaaaaa") =
      .ok (resolveIdentity (.oid "aaaaaaaaaaaaaaaaaaaaaaaa")))
    ∧ (setCheckedFilterId (.str "not-an-objectid") =
      .ok (resolveIdentity (.str "not-an-objectid")))
    ∧ (setCheckedFilterId (.oid "aaaaaaaaaaaaaaaaaaaaaaaa") =
      .ok (resolveIdentity (.oid "aaaaaaaaaaaaaaaaaaaaaaaa")))
    ∧ (deleteItemFilterId (.str "x") = resolveIdentity (.str "x")) :=
  ⟨identity_resolution_two_stage.1 "not-an-objectid",
    identity_resolution_two_stage.2.1 "aaaaaaaaaaaaaaaaaaaaaaaa",
    identity_resolution_two_stage.2.2.1 _ (Or.inl (by decide)),
    identity_resolution_two_stage.2.2.1 _ (Or.inr (by decide)),
    identity_resolution_two_stage.2.2.2.1 "not-an-objectid",
    identity_resolution_two_stage.2.2.2.2.1 "aaaaaaaaaaaaaaaaaaaaaaaa" (by decide),
    identity_resolution_two_stage.2.2.2.2.2 (.str "x")⟩

theorem delete_list_true_iff (coll : Collection) (id : String) :
    (ToDoDAL.delete_todo_list coll id).2 = true
      ↔ coll.any (docMatches (deleteListFilter id)) = true := by
  have hsnd := removeFirst_snd (docMatches (deleteListFilter id)) coll
  simp only [ToDoDAL.delete_todo_list, hsnd]
  cases hany : coll.any (docMatches (deleteListFilter id)) <;> simp [hany]

/-- C6: `delete_todo_list` returns `true` exactly when a document matching
the resolved identity existed (and exactly one was removed), `false` when
none matched; hence — under the Mongo unique-`_id` guarantee (at most one
match) — deleting the same list twice returns `true` then `false`. -/
theorem delete_todo_list_semantics :
    (∀ (coll : Collection) (id : String),
        (ToDoDAL.delete_todo_list coll id).2 = true
          ↔ coll.any (docMatches (deleteListFilter id)) = true)
    ∧ (∀ (coll : Collection) (id : String),
        coll.countP (docMatches (deleteListFilter id)) ≤ 1 →
        (ToDoDAL.delete_todo_list coll id).2 = true →
        (ToDoDAL.delete_todo_list
          (ToDoDAL.delete_todo_list coll id).1 id).2 = false) := by
  refine ⟨delete_list_true_iff, ?_⟩
  intro coll id hu h1
  have hany : coll.any (docMatches (deleteListFilter id)) = true :=
    (delete_list_true_iff coll id).mp h1
  have hpos : 0 < coll.countP (docMatches (deleteListFilter id)) := by
    rw [List.any_eq_true] at hany
    obtain ⟨x, hx, hpx⟩ := hany
    exact List.countP_pos_iff.mpr ⟨x, hx, hpx⟩
  have hone : coll.countP (docMatches (deleteListFilter id)) = 1 := by omega
  have hsnd := removeFirst_snd (docMatches (deleteListFilter id)) coll
  have hcnt := removeFirst_countP (docMatches (deleteListFilter id)) coll
  rw [hany, if_pos rfl] at hsnd
  have hzero :
      (removeFirst (docMatches (deleteListFilter id)) coll).1.countP
        (docMatches (deleteListFilter id)) = 0 := by
    rw [hcnt, hsnd, hone]
  have hnone :
      (removeFirst (docMatches (deleteListFilter id)) coll).1.any
        (docMatches (deleteListFilter id)) = false := by
    rw [List.countP_eq_zero] at hzero
    rw [List.any_eq_false]
    intro x hx
    simp [hzero x hx]
  have hfst : (ToDoDAL.delete_todo_list coll id).1 =
      (removeFirst (docMatches (deleteListFilter id)) coll).1 := rfl
  rw [hfst]
  by_contra hc
  have h2 : (ToDoDAL.delete_todo_list
      (removeFirst (docMatches (deleteListFilter id)) coll).1 id).2 = true := by
    revert hc
    cases (ToDoDAL.delete_todo_list
      (removeFirst (docMatches (deleteListFilter id)) coll).1 id).2 <;> simp
  have := (delete_list_true_iff _ id).mp h2
  rw [hnone] at this
  cases this

/-- Witness for C6: a one-document collection, deleted twice. -/
theorem delete_todo_list_semantics_witness :
    ((ToDoDAL.delete_todo_list [mkListDoc (.oid "aaaaaaaaaaaaaaaaaaaaaaaa") "g" []]
        "aaaaaaaaaaaaaaaaaaaaaaaa").2 = true
      ↔ [mkListDoc (.oid "aaaaaaaaaaaaaaaaaaaaaaaa") "g" []].any
          (docMatches (deleteListFilter "aaaaaaaaaaaaaaaaaaaaaaaa")) = true)
    ∧ ([mkListDoc (.oid "aaaaaaaaaaaaaaaaaaaaaaaa") "g" []].countP
          (docMatches (deleteListFilter "aaaaaaaaaaaaaaaaaaaaaaaa")) ≤ 1
      ∧ (ToDoDAL.delete_todo_list [mkListDoc (.oid "aaaaaaaaaaaaaaaaaaaaaaaa") "g" []]
          "aaaaaaaaaaaaaaaaaaaaaaaa").2 = true
      ∧ (ToDoDAL.delete_todo_list
          (ToDoDAL.delete_todo_list [mkListDoc (.oid "aaaaaaaaaaaaaaaaaaaaaaaa") "g" []]
            "aaaaaaaaaaaaaaaaaaaaaaaa").1 "aaaaaaaaaaaaaaaaaaaaaaaa").2 = false) :=
  ⟨delete_todo_list_semantics.1 _ "aaaaaaaaaaaaaaaaaaaaaaaa",
    by decide, by decide,
    delete_todo_list_semantics.2 _ "aaaaaaaaaaaaaaaaaaaaaaaa" (by decide) (by decide)⟩

end FarmDal

namespace FarmDal

theorem truthy_and_dict_of_docMatches {f : Filter} {d : Value}
    (h : docMatches f d = true) : truthy d = true ∧ d.isDict = true := by
  have hid : ∃ w, dget d "_id" = some w := by
    cases f with
    | byId v =>
        simp only [docMatches] at h
        cases hg : dget d "_id" with
        | none => rw [hg] at h; cases h
        | some w => exact ⟨w, rfl⟩
    | byIdAndItem v i =>
        simp only [docMatches, Bool.and_eq_true] at h
        obtain ⟨h1, h2⟩ := h
        cases hg : dget d "_id" with
        | none => rw [hg] at h1; cases h1
        | some w => exact ⟨w, rfl⟩
  obtain ⟨w, hw⟩ := hid
  cases d <;> first | exact ⟨truthy_obj_of_lookup hw, rfl⟩ | simp [dget] at hw

end FarmDal

namespace FarmDal

theorem truthy_obj_setKey (kvs : List (String × Value)) (k : String) (v : Value) :
    truthy (.obj (setKey kvs k v)) = true := by
  cases kvs with
  | nil => simp [setKey, truthy]
  | cons kv rest =>
      obtain ⟨k', v'⟩ := kv
      simp only [setKey]
      split <;> simp [truthy]

theorem truthy_applyUpdate {up : Update} {d d' : Value} {f : Filter}
    (hm : docMatches f d = true) (h : applyUpdate up d = .ok d') :
    truthy d' = true := by
  obtain ⟨htd, hdict⟩ := truthy_and_dict_of_docMatches hm
  obtain ⟨kvs, rfl⟩ : ∃ kvs, d = .obj kvs := by
    cases d <;> first | exact ⟨_, rfl⟩ | simp_all [Value.isDict]
  cases up with
  | pushItem it =>
      simp only [applyUpdate] at h
      cases hg : dget (.obj kvs) "items" with
      | none =>
          rw [hg] at h
          cases h
          simp [dset, truthy_obj_setKey]
      | some w =>
          rw [hg] at h
          cases w <;> simp_all [dset] ;  exact h ▸ truthy_obj_setKey kvs "items" _
  | setMatchedChecked i b =>
      simp only [applyUpdate] at h
      cases hg : dget (.obj kvs) "items" with
      | none => rw [hg] at h; cases h
      | some w =>
          rw [hg] at h
          cases w <;> simp_all [dset] ;  exact h ▸ truthy_obj_setKey kvs "items" _
  | pullItems i =>
      simp only [applyUpdate] at h
      cases hg : dget (.obj kvs) "items" with
      | none => rw [hg] at h; cases h; exact htd
      | some w =>
          rw [hg] at h
          cases w <;> simp_all [dset] ;  exact h ▸ truthy_obj_setKey kvs "items" _

theorem updateFirst_append_error (p : Value → Bool) (u : Value → Except PyErr Value)
    (pre suf : List Value) (d : Value) (e : PyErr)
    (hpre : ∀ x ∈ pre, p x = false) (hd : p d = true) (hu : u d = .error e) :
    updateFirst p u (pre ++ d :: suf) = .error e := by
  induction pre with
  | nil => simp [updateFirst, hd, hu]
  | cons a as ih =>
      have ha : p a = false := hpre a (by simp)
      have ih' := ih (fun x hx => hpre x (by simp [hx]))
      simp [updateFirst, ha, ih']

theorem mapUpdatedDoc_some_ok_none {d' : Value}
    (h : mapUpdatedDoc (some d') = .ok Option.none) : truthy d' = false := by
  by_cases ht : truthy d' = true
  · exfalso
    simp only [mapUpdatedDoc, Option.getD_some, ht, if_pos] at h
    exact absurd ((toDoList_from_doc_ok_none_iff d').mp h) (by simp [ht])
  · exact bool_eq_false_of_ne_true ht

theorem fnu_none_imp_no_match (f : Filter) (up : Update) :
    ∀ (coll : Collection) (c' : Collection),
    Bind.bind (updateFirst (docMatches f) (applyUpdate up) coll) returnUpdated
      = .ok (c', Option.none) →
    ∀ x ∈ coll, docMatches f x = false := by
  intro coll
  induction coll with
  | nil => intro c' h x hx; cases hx
  | cons d ds ih =>
      intro c' h x hx
      by_cases hp : docMatches f d = true
      · exfalso
        cases hu : applyUpdate up d with
        | error e =>
            simp only [updateFirst, hp, if_pos, hu, except_bind_err] at h
            cases h
        | ok d' =>
            simp only [updateFirst, hp, if_pos, hu, except_bind_ok] at h
            simp only [returnUpdated, Except.map] at h
            cases hm : mapUpdatedDoc (some d') with
            | error e => rw [hm] at h; cases h
            | ok l =>
                rw [hm] at h
                simp only [Except.ok.injEq, Prod.mk.injEq] at h
                have hl : l = Option.none := h.2
                rw [hl] at hm
                have := mapUpdatedDoc_some_ok_none hm
                rw [truthy_applyUpdate hp hu] at this
                cases this
      · have hp' : docMatches f d = false := bool_eq_false_of_ne_true hp
        cases hr : updateFirst (docMatches f) (applyUpdate up) ds with
        | error e =>
            simp only [updateFirst, hp', Bool.false_eq_true, if_false, hr,
              except_bind_err] at h
            cases h
        | ok r =>
            simp only [updateFirst, hp', Bool.false_eq_true, if_false, hr,
              except_bind_ok] at h
            simp only [returnUpdated, Except.map] at h
            cases hm : mapUpdatedDoc r.2 with
            | error e => rw [hm] at h; cases h
            | ok l =>
                rw [hm] at h
                simp only [Except.ok.injEq, Prod.mk.injEq] at h
                have hds : Bind.bind (updateFirst (docMatches f) (applyUpdate up) ds)
                    returnUpdated = .ok (r.1, Option.none) := by
                  rw [hr]
                  simp only [except_bind_ok, returnUpdated, Except.map, hm, h.2]
                cases hx with
                | head => exact hp'
                | tail _ hx' => exact ih r.1 hds x hx'

end FarmDal

namespace FarmDal

theorem create_item_core (pre suf : Collection) (id fv idv : Value)
    (label itemId vstr name : String) (its : List ItemTriple)
    (hf : createItemFilterId id = .ok fv)
    (hpre : ∀ x ∈ pre, docMatches (.byId fv) x = false)
    (hmatch : scalarEq idv fv = true)
    (ht : truthy idv = true) (hs : pyStr idv = some vstr) :
    ToDoDAL.create_item (pre ++ mkListDoc idv name (its.map itemDocOf) :: suf)
        id label itemId =
      .ok (pre ++ mkListDoc idv name
            ((its ++ [(itemId, label, false)]).map itemDocOf) :: suf,
        some ⟨some vstr, name,
          its.map itemModelOf ++ [⟨some itemId, label, false⟩]⟩) := by
  have hm : docMatches (.byId fv) (mkListDoc idv name (its.map itemDocOf)) = true := by
    simp [hmatch]
  have happ := applyUpdate_push_mkListDoc (mkItemDoc itemId label false) idv name
    (its.map itemDocOf)
  have hupd := updateFirst_append (docMatches (.byId fv))
    (applyUpdate (.pushItem (mkItemDoc itemId label false))) pre suf _ _ hpre hm happ
  have hmap : its.map itemDocOf ++ [mkItemDoc itemId label false]
      = (its ++ [(itemId, label, false)]).map itemDocOf := by
    simp [itemDocOf]
  have hfd := from_doc_mkListDoc idv name (its ++ [(itemId, label, false)]) vstr ht hs
  rw [hmap] at hupd
  simp only [mkItemDoc] at hupd
  simp only [List.map_append] at hfd
  simp only [ToDoDAL.create_item, hf, except_bind_ok, hupd, returnUpdated,
    mapUpdatedDoc, Option.getD_some, truthy_mkListDoc, if_pos, Except.map,
    List.map_append, hfd, itemModelOf]
  rfl

end FarmDal

namespace FarmDal

theorem create_item_no_match (coll : Collection) (id fv : Value)
    (label itemId : String) (hf : createItemFilterId id = .ok fv)
    (hno : ∀ x ∈ coll, docMatches (.byId fv) x = false) :
    ToDoDAL.create_item coll id label itemId = .ok (coll, Option.none) := by
  rw [show ToDoDAL.create_item coll id label itemId
      = Bind.bind (createItemFilterId id) (fun fv =>
          Bind.bind (updateFirst (docMatches (.byId fv))
            (applyUpdate (.pushItem (.obj [("id", .str itemId),
              ("label", .str label), ("checked", .bool false)]))) coll)
            returnUpdated) from rfl]
  rw [hf, except_bind_ok, updateFirst_of_no_match _ _ coll hno]
  simp [returnUpdated, mapUpdatedDoc, truthy, Except.map]

/-- C3: when the resolved identity matches a stored (well-formed) list
document, `create_item` returns the post-mutation full list: the previous
items unchanged and in order, with exactly one new item appended at the
end carrying the given label, `checked = false` and the freshly generated
id — and the stored document is mutated the same way; when no document
matches, it returns the absence signal `None` and the collection is
unchanged. -/
theorem create_item_appends :
    (∀ (coll : Collection) (id fv : Value) (label itemId : String),
        createItemFilterId id = .ok fv →
        (∀ x ∈ coll, docMatches (.byId fv) x = false) →
        ToDoDAL.create_item coll id label itemId = .ok (coll, Option.none))
    ∧ (∀ (pre suf : Collection) (id fv idv : Value)
        (label itemId vstr name : String) (its : List ItemTriple),
        createItemFilterId id = .ok fv →
        (∀ x ∈ pre, docMatches (.byId fv) x = false) →
        scalarEq idv fv = true →
        truthy idv = true → pyStr idv = some vstr →
        ToDoDAL.create_item (pre ++ mkListDoc idv name (its.map itemDocOf) :: suf)
            id label itemId =
          .ok (pre ++ mkListDoc idv name
                ((its ++ [(itemId, label, false)]).map itemDocOf) :: suf,
            some ⟨some vstr, name,
              its.map itemModelOf ++ [⟨some itemId, label, false⟩]⟩)) :=
  ⟨create_item_no_match,
    fun pre suf id fv idv label itemId vstr name its hf hpre hmatch ht hs =>
      create_item_core pre suf id fv idv label itemId vstr name its hf hpre
        hmatch ht hs⟩

/-- Witness for C3: one stored "Groceries" list; a non-matching identity
returns `None`, the matching identity appends "Milk". -/
theorem create_item_appends_witness :
    (ToDoDAL.create_item [mkListDoc (.oid "aaaaaaaaaaaaaaaaaaaaaaaa") "Groceries" []]
        (.str "zzz") "Milk" "u1"
      = .ok ([mkListDoc (.oid "aaaaaaaaaaaaaaaaaaaaaaaa") "Groceries" []], Option.none))
    ∧ (ToDoDAL.create_item [mkListDoc (.oid "aaaaaaaaaaaaaaaaaaaaaaaa") "Groceries" []]
        (.str "aaaaaaaaaaaaaaaaaaaaaaaa") "Milk" "u1"
      = .ok ([mkListDoc (.oid "aaaaaaaaaaaaaaaaaaaaaaaa") "Groceries"
            (([(("u1" : String), ("Milk" : String), false)]).map itemDocOf)],
          some ⟨some "aaaaaaaaaaaaaaaaaaaaaaaa", "Groceries",
            [⟨some "u1", "Milk", false⟩]⟩)) :=
  ⟨create_item_appends.1 _ (.str "zzz") (.str "zzz") "Milk" "u1" (by rfl) (by decide),
    create_item_appends.2 [] [] (.str "aaaaaaaaaaaaaaaaaaaaaaaa")
      (.oid "aaaaaaaaaaaaaaaaaaaaaaaa") (.oid "aaaaaaaaaaaaaaaaaaaaaaaa")
      "Milk" "u1" "aaaaaaaaaaaaaaaaaaaaaaaa" "Groceries" []
      (by rfl) (by simp) (by rfl) (by rfl) (by rfl)⟩

end FarmDal

namespace FarmDal

theorem filter_map_itemDocOf (its : List ItemTriple) (itemId : String) :
    (its.map itemDocOf).filter (fun x => !itemIdMatches x itemId)
      = (its.filter (fun t => !(t.1 == itemId))).map itemDocOf := by
  rw [List.filter_map]
  have hp : ((fun x => !itemIdMatches x itemId) ∘ itemDocOf)
      = (fun t : ItemTriple => !(t.1 == itemId)) := by
    funext t
    simp [Function.comp, itemIdMatches_itemDocOf]
  rw [hp]

theorem delete_item_core (pre suf : Collection) (docId idv : Value)
    (itemId vstr name : String) (its : List ItemTriple)
    (hpre : ∀ x ∈ pre, docMatches (.byId (deleteItemFilterId docId)) x = false)
    (hmatch : scalarEq idv (deleteItemFilterId docId) = true)
    (ht : truthy idv = true) (hs : pyStr idv = some vstr) :
    ToDoDAL.delete_item (pre ++ mkListDoc idv name (its.map itemDocOf) :: suf)
        docId itemId =
      .ok (pre ++ mkListDoc idv name
            ((its.filter (fun t => !(t.1 == itemId))).map itemDocOf) :: suf,
        some ⟨some vstr, name,
          (its.filter (fun t => !(t.1 == itemId))).map itemModelOf⟩) := by
  have hm : docMatches (.byId (deleteItemFilterId docId))
      (mkListDoc idv name (its.map itemDocOf)) = true := by
    simp [hmatch]
  have happ := applyUpdate_pull_mkListDoc idv itemId name (its.map itemDocOf)
  rw [filter_map_itemDocOf] at happ
  have hupd := updateFirst_append (docMatches (.byId (deleteItemFilterId docId)))
    (applyUpdate (.pullItems itemId)) pre suf _ _ hpre hm happ
  have hfd := from_doc_mkListDoc idv name (its.filter (fun t => !(t.1 == itemId)))
    vstr ht hs
  simp only [ToDoDAL.delete_item, hupd, except_bind_ok, returnUpdated,
    mapUpdatedDoc, Option.getD_some, truthy_mkListDoc, if_pos, Except.map, hfd]

/-- C4: `delete_item` returns the not-found signal (`None`) only when the
list identity resolves to no stored document (first two conjuncts: `None`
is returned exactly on no-match); for an existing (well-formed) list and
an item identity matching none of its items, it returns the list
unchanged — same id, name and items — and leaves the collection
unchanged. -/
theorem delete_item_not_found_semantics :
    (∀ (coll : Collection) (docId : Value) (itemId : String),
        (∀ x ∈ coll, docMatches (.byId (deleteItemFilterId docId)) x = false) →
        ToDoDAL.delete_item coll docId itemId = .ok (coll, Option.none))
    ∧ (∀ (coll c' : Collection) (docId : Value) (itemId : String),
        ToDoDAL.delete_item coll docId itemId = .ok (c', Option.none) →
        ∀ x ∈ coll, docMatches (.byId (deleteItemFilterId docId)) x = false)
    ∧ (∀ (pre suf : Collection) (docId idv : Value)
        (itemId vstr name : String) (its : List ItemTriple),
        (∀ x ∈ pre, docMatches (.byId (deleteItemFilterId docId)) x = false) →
        scalarEq idv (deleteItemFilterId docId) = true →
        truthy idv = true → pyStr idv = some vstr →
        (∀ t ∈ its, (t.1 == itemId) = false) →
        ToDoDAL.delete_item (pre ++ mkListDoc idv name (its.map itemDocOf) :: suf)
            docId itemId =
          .ok (pre ++ mkListDoc idv name (its.map itemDocOf) :: suf,
            some ⟨some vstr, name, its.map itemModelOf⟩)) := by
  refine ⟨?_, ?_, ?_⟩
  · intro coll docId itemId hno
    rw [show ToDoDAL.delete_item coll docId itemId
        = Bind.bind (updateFirst (docMatches (.byId (deleteItemFilterId docId)))
            (applyUpdate (.pullItems itemId)) coll) returnUpdated from rfl]
    rw [updateFirst_of_no_match _ _ coll hno]
    simp [returnUpdated, mapUpdatedDoc, truthy, Except.map]
  · intro coll c' docId itemId h
    exact fnu_none_imp_no_match (.byId (deleteItemFilterId docId))
      (.pullItems itemId) coll c' h
  · intro pre suf docId idv itemId vstr name its hpre hmatch ht hs hnone
    have hself : its.filter (fun t => !(t.1 == itemId)) = its :=
      List.filter_eq_self.mpr (fun t htm => by simp [hnone t htm])
    have := delete_item_core pre suf docId idv itemId vstr name its hpre hmatch ht hs
    rwa [hself] at this

/-- Witness for C4: deleting an item id that matches nothing from an
existing one-item list returns the unchanged list; an unresolvable
identity returns `None`. -/
theorem delete_item_not_found_semantics_witness :
    (ToDoDAL.delete_item [mkListDoc (.oid "aaaaaaaaaaaaaaaaaaaaaaaa") "Groceries"
          ([(("u1" : String), ("Milk" : String), false)].map itemDocOf)]
        (.str "zzz") "u1"
      = .ok ([mkListDoc (.oid "aaaaaaaaaaaaaaaaaaaaaaaa") "Groceries"
          ([(("u1" : String), ("Milk" : String), false)].map itemDocOf)], Option.none))
    ∧ (ToDoDAL.delete_item [mkListDoc (.oid "aaaaaaaaaaaaaaaaaaaaaaaa") "Groceries"
          ([(("u1" : String), ("Milk" : String), false)].map itemDocOf)]
        (.str "aaaaaaaaaaaaaaaaaaaaaaaa") "nope"
      = .ok ([mkListDoc (.oid "aaaaaaaaaaaaaaaaaaaaaaaa") "Groceries"
            ([(("u1" : String), ("Milk" : String), false)].map itemDocOf)],
          some ⟨some "aaaaaaaaaaaaaaaaaaaaaaaa", "Groceries",
            [⟨some "u1", "Milk", false⟩]⟩)) :=
  ⟨delete_item_not_found_semantics.1 _ (.str "zzz") "u1" (by decide),
    delete_item_not_found_semantics.2.2 [] [] (.str "aaaaaaaaaaaaaaaaaaaaaaaa")
      (.oid "aaaaaaaaaaaaaaaaaaaaaaaa") "nope" "aaaaaaaaaaaaaaaaaaaaaaaa"
      "Groceries" [("u1", "Milk", false)]
      (by simp) (by rfl) (by rfl) (by rfl) (by decide)⟩

end FarmDal

namespace FarmDal

@[simp] theorem dset_mkItemDoc_checked (i l : String) (c b : Bool) :
    dset (mkItemDoc i l c) "checked" (.bool b) = mkItemDoc i l b := by
  simp [mkItemDoc, dset, setKey]

@[simp] theorem itemIdMatches_mkItemDoc (i l : String) (b : Bool) (j : String) :
    itemIdMatches (mkItemDoc i l b) j = (i == j) := by
  simp [itemIdMatches, mkItemDoc, dget, lookupKey, scalarEq]

theorem setFirstChecked_map (its1 its2 : List ItemTriple) (itemId lb : String)
    (c b : Bool) (h1 : ∀ t ∈ its1, (t.1 == itemId) = false) :
    setFirstChecked itemId b ((its1 ++ (itemId, lb, c) :: its2).map itemDocOf)
      = (its1 ++ (itemId, lb, b) :: its2).map itemDocOf := by
  induction its1 with
  | nil =>
      simp [setFirstChecked, itemDocOf, itemIdMatches_mkItemDoc,
        dset_mkItemDoc_checked]
  | cons t ts ih =>
      have htm : (t.1 == itemId) = false := h1 t (by simp)
      have ih' := ih (fun x hx => h1 x (by simp [hx]))
      simp only [List.cons_append, List.map_cons, setFirstChecked,
        itemIdMatches_itemDocOf, htm, Bool.false_eq_true, if_false]
      exact congrArg (itemDocOf t :: ·) ih'

theorem set_checked_core (pre suf : Collection) (docId fv idv : Value)
    (itemId lb vstr name : String) (c b : Bool) (its1 its2 : List ItemTriple)
    (hf : setCheckedFilterId docId = .ok fv)
    (hpre : ∀ x ∈ pre, docMatches (.byIdAndItem fv itemId) x = false)
    (hmatch : scalarEq idv fv = true)
    (h1 : ∀ t ∈ its1, (t.1 == itemId) = false)
    (ht : truthy idv = true) (hs : pyStr idv = some vstr) :
    ToDoDAL.set_checked_state
        (pre ++ mkListDoc idv name
          ((its1 ++ (itemId, lb, c) :: its2).map itemDocOf) :: suf)
        docId itemId b =
      .ok (pre ++ mkListDoc idv name
            ((its1 ++ (itemId, lb, b) :: its2).map itemDocOf) :: suf,
        some ⟨some vstr, name,
          (its1 ++ (itemId, lb, b) :: its2).map itemModelOf⟩) := by
  have hany : (((its1 ++ (itemId, lb, c) :: its2).map itemDocOf).any
      (fun x => itemIdMatches x itemId)) = true := by
    simp [List.any_map, Function.comp, itemIdMatches_itemDocOf]
  have hm : docMatches (.byIdAndItem fv itemId)
      (mkListDoc idv name ((its1 ++ (itemId, lb, c) :: its2).map itemDocOf)) = true := by
    simp only [docMatches_byIdAndItem_mkListDoc, hmatch, Bool.true_and]
    exact hany
  have happ := applyUpdate_setChecked_mkListDoc idv itemId b name
    ((its1 ++ (itemId, lb, c) :: its2).map itemDocOf)
  rw [setFirstChecked_map its1 its2 itemId lb c b h1] at happ
  have hupd := updateFirst_append (docMatches (.byIdAndItem fv itemId))
    (applyUpdate (.setMatchedChecked itemId b)) pre suf _ _ hpre hm happ
  have hfd := from_doc_mkListDoc idv name (its1 ++ (itemId, lb, b) :: its2) vstr ht hs
  simp only [ToDoDAL.set_checked_state, hf, except_bind_ok, hupd, returnUpdated,
    mapUpdatedDoc, Option.getD_some, truthy_mkListDoc, if_pos, Except.map, hfd]

/-- C5: `set_checked_state` returns the not-found signal (`None`) exactly
when no stored document matches both the resolved list identity and an
item with the given item id (first two conjuncts); otherwise it returns
the post-mutation full list in which the `checked` flag of the matched item
equals the given boolean and everything else is unchanged. -/
theorem set_checked_state_semantics :
    (∀ (coll : Collection) (docId fv : Value) (itemId : String) (b : Bool),
        setCheckedFilterId docId = .ok fv →
        (∀ x ∈ coll, docMatches (.byIdAndItem fv itemId) x = false) →
        ToDoDAL.set_checked_state coll docId itemId b = .ok (coll, Option.none))
    ∧ (∀ (coll c' : Collection) (docId fv : Value) (itemId : String) (b : Bool),
        setCheckedFilterId docId = .ok fv →
        ToDoDAL.set_checked_state coll docId itemId b = .ok (c', Option.none) →
        ∀ x ∈ coll, docMatches (.byIdAndItem fv itemId) x = false)
    ∧ (∀ (pre suf : Collection) (docId fv idv : Value)
        (itemId lb vstr name : String) (c b : Bool) (its1 its2 : List ItemTriple),
        setCheckedFilterId docId = .ok fv →
        (∀ x ∈ pre, docMatches (.byIdAndItem fv itemId) x = false) →
        scalarEq idv fv = true →
        (∀ t ∈ its1, (t.1 == itemId) = false) →
        truthy idv = true → pyStr idv = some vstr →
        ToDoDAL.set_checked_state
            (pre ++ mkListDoc idv name
              ((its1 ++ (itemId, lb, c) :: its2).map itemDocOf) :: suf)
            docId itemId b =
          .ok (pre ++ mkListDoc idv name
                ((its1 ++ (itemId, lb, b) :: its2).map itemDocOf) :: suf,
            some ⟨some vstr, name,
              (its1 ++ (itemId, lb, b) :: its2).map itemModelOf⟩)) := by
  refine ⟨?_, ?_, ?_⟩
  · intro coll docId fv itemId b hf hno
    rw [show ToDoDAL.set_checked_state coll docId itemId b
        = Bind.bind (setCheckedFilterId docId) (fun fv =>
            Bind.bind (updateFirst (docMatches (.byIdAndItem fv itemId))
              (applyUpdate (.setMatchedChecked itemId b)) coll) returnUpdated)
        from rfl]
    rw [hf, except_bind_ok, updateFirst_of_no_match _ _ coll hno]
    simp [returnUpdated, mapUpdatedDoc, truthy, Except.map]
  · intro coll c' docId fv itemId b hf h
    rw [show ToDoDAL.set_checked_state coll docId itemId b
        = Bind.bind (setCheckedFilterId docId) (fun fv =>
            Bind.bind (updateFirst (docMatches (.byIdAndItem fv itemId))
              (applyUpdate (.setMatchedChecked itemId b)) coll) returnUpdated)
        from rfl, hf, except_bind_ok] at h
    exact fnu_none_imp_no_match (.byIdAndItem fv itemId)
      (.setMatchedChecked itemId b) coll c' h
  · intro pre suf docId fv idv itemId lb vstr name c b its1 its2 hf hpre hmatch h1 ht hs
    exact set_checked_core pre suf docId fv idv itemId lb vstr name c b its1 its2
      hf hpre hmatch h1 ht hs

/-- Witness for C5: toggling the freshly created item "Milk" to checked
succeeds; a wrong item id yields `None`. -/
theorem set_checked_state_semantics_witness :
    (ToDoDAL.set_checked_state [mkListDoc (.oid "aaaaaaaaaaaaaaaaaaaaaaaa") "Groceries"
          ([(("u1" : String), ("Milk" : String), false)].map itemDocOf)]
        (.str "aaaaaaaaaaaaaaaaaaaaaaaa") "nope" true
      = .ok ([mkListDoc (.oid "aaaaaaaaaaaaaaaaaaaaaaaa") "Groceries"
          ([(("u1" : String), ("Milk" : String), false)].map itemDocOf)], Option.none))
    ∧ (ToDoDAL.set_checked_state [mkListDoc (.oid "aaaaaaaaaaaaaaaaaaaaaaaa") "Groceries"
          ([(("u1" : String), ("Milk" : String), false)].map itemDocOf)]
        (.str "aaaaaaaaaaaaaaaaaaaaaaaa") "u1" true
      = .ok ([mkListDoc (.oid "aaaaaaaaaaaaaaaaaaaaaaaa") "Groceries"
            ([(("u1" : String), ("Milk" : String), true)].map itemDocOf)],
          some ⟨some "aaaaaaaaaaaaaaaaaaaaaaaa", "Groceries",
            [⟨some "u1", "Milk", true⟩]⟩)) :=
  ⟨set_checked_state_semantics.1 _ (.str "aaaaaaaaaaaaaaaaaaaaaaaa")
      (.oid "aaaaaaaaaaaaaaaaaaaaaaaa") "nope" true (by rfl) (by decide),
    set_checked_state_semantics.2.2 [] [] (.str "aaaaaaaaaaaaaaaaaaaaaaaa")
      (.oid "aaaaaaaaaaaaaaaaaaaaaaaa") (.oid "aaaaaaaaaaaaaaaaaaaaaaaa")
      "u1" "Milk" "aaaaaaaaaaaaaaaaaaaaaaaa" "Groceries" false true [] []
      (by rfl) (by simp) (by rfl) (by simp) (by rfl) (by rfl)⟩

end FarmDal

namespace FarmDal

/-- C9: two successive `create_item` calls on the same list draw two
successive values from the uuid stream and attach them, one per call, to
the item each call appends; whenever the stream does not collide on the
two draws (`uuid4` collisions have negligible probability), the two
generated item ids — and hence the ids of the two appended items — are
distinct, so item ids stay unique within the item sequence of the list. -/
theorem generated_item_ids_distinct (g : UuidGen) (n : Nat)
    (pre suf : Collection) (id fv idv : Value)
    (label1 label2 vstr name : String) (its : List ItemTriple)
    (hf : createItemFilterId id = .ok fv)
    (hpre : ∀ x ∈ pre, docMatches (.byId fv) x = false)
    (hmatch : scalarEq idv fv = true)
    (ht : truthy idv = true) (hs : pyStr idv = some vstr)
    (hfresh : g.gen n ≠ g.gen (n + 1)) :
    ToDoDAL.create_item_gen g
        ⟨pre ++ mkListDoc idv name (its.map itemDocOf) :: suf, n⟩ id label1 =
      .ok (⟨pre ++ mkListDoc idv name
            ((its ++ [(g.gen n, label1, false)]).map itemDocOf) :: suf, n + 1⟩,
        some ⟨some vstr, name,
          its.map itemModelOf ++ [⟨some (g.gen n), label1, false⟩]⟩)
    ∧ ToDoDAL.create_item_gen g
        ⟨pre ++ mkListDoc idv name
          ((its ++ [(g.gen n, label1, false)]).map itemDocOf) :: suf, n + 1⟩
        id label2 =
      .ok (⟨pre ++ mkListDoc idv name
            (((its ++ [(g.gen n, label1, false)]) ++
              [(g.gen (n + 1), label2, false)]).map itemDocOf) :: suf, n + 2⟩,
        some ⟨some vstr, name,
          (its ++ [(g.gen n, label1, false)]).map itemModelOf ++
            [⟨some (g.gen (n + 1)), label2, false⟩]⟩)
    ∧ ToDoListItem.id ⟨some (g.gen n), label1, false⟩
        ≠ ToDoListItem.id ⟨some (g.gen (n + 1)), label2, false⟩ := by
  have h1 := create_item_core pre suf id fv idv label1 (g.gen n) vstr name its
    hf hpre hmatch ht hs
  have h2 := create_item_core pre suf id fv idv label2 (g.gen (n + 1)) vstr name
    (its ++ [(g.gen n, label1, false)]) hf hpre hmatch ht hs
  refine ⟨?_, ?_, ?_⟩
  · simp only [ToDoDAL.create_item_gen, h1, except_bind_ok]
    rfl
  · simp only [ToDoDAL.create_item_gen, h2, except_bind_ok]
    rfl
  · simp only [ToDoListItem.id, ne_eq, Option.some.injEq]
    exact hfresh

/-- Witness for C9 with an explicit non-colliding uuid stream. -/
theorem generated_item_ids_distinct_witness :
    ToDoDAL.create_item_gen ⟨fun k => if k == 0 then "u1" else "u2"⟩
        ⟨[mkListDoc (.oid "aaaaaaaaaaaaaaaaaaaaaaaa") "Groceries" []], 0⟩
        (.str "aaaaaaaaaaaaaaaaaaaaaaaa") "Milk" =
      .ok (⟨[mkListDoc (.oid "aaaaaaaaaaaaaaaaaaaaaaaa") "Groceries"
            ([(("u1" : String), ("Milk" : String), false)].map itemDocOf)], 1⟩,
        some ⟨some "aaaaaaaaaaaaaaaaaaaaaaaa", "Groceries",
          [⟨some "u1", "Milk", false⟩]⟩)
    ∧ ToDoDAL.create_item_gen ⟨fun k => if k == 0 then "u1" else "u2"⟩
        ⟨[mkListDoc (.oid "aaaaaaaaaaaaaaaaaaaaaaaa") "Groceries"
            ([(("u1" : String), ("Milk" : String), false)].map itemDocOf)], 1⟩
        (.str "aaaaaaaaaaaaaaaaaaaaaaaa") "Eggs" =
      .ok (⟨[mkListDoc (.oid "aaaaaaaaaaaaaaaaaaaaaaaa") "Groceries"
            ([(("u1" : String), ("Milk" : String), false),
              (("u2" : String), ("Eggs" : String), false)].map itemDocOf)], 2⟩,
        some ⟨some "aaaaaaaaaaaaaaaaaaaaaaaa", "Groceries",
          [⟨some "u1", "Milk", false⟩, ⟨some "u2", "Eggs", false⟩]⟩)
    ∧ ToDoListItem.id ⟨some "u1", "Milk", false⟩
        ≠ ToDoListItem.id ⟨some "u2", "Eggs", false⟩ :=
  generated_item_ids_distinct ⟨fun k => if k == 0 then "u1" else "u2"⟩ 0
    [] [] (.str "aaaaaaaaaaaaaaaaaaaaaaaa") (.oid "aaaaaaaaaaaaaaaaaaaaaaaa")
    (.oid "aaaaaaaaaaaaaaaaaaaaaaaa") "Milk" "Eggs" "aaaaaaaaaaaaaaaaaaaaaaaa"
    "Groceries" [] (by rfl) (by simp) (by rfl) (by rfl) (by rfl) (by decide)

end FarmDal
